import Mathlib

/-!
Verification of the Exoscale provider resource adapters (security group and
elastic IP) against their natural-language specification.

The Go resource handlers are shallowly embedded as pure Lean functions:

* The remote API client is modelled by a record of call results (`SGClient`,
  `EIPClient`): each field holds the outcome the remote side would return for
  the corresponding call, so a lifecycle function becomes a pure function of
  the client record, the configuration and the prior state.
* A distinguished not-found error kind mirrors `exoapi.ErrNotFound`
  (matched via `errors.Is` in the source).
* Fallible Go code returning `diag.Diagnostics` is modelled with
  `Option String` (`none` = empty diagnostics, `some msg` = error diagnostic);
  a nil-pointer dereference (a Go panic) is modelled by an outer `Option`
  returning `none`.
* Each lifecycle function additionally returns the list of remote API calls
  it issued, in order, so that call-count properties can be stated.
* Go strings handled only opaquely are `String`; the state-upgrade function
  lowercases its input, so there Go strings are embedded as lists of rune
  code points (`List Nat`) and `strings.ToLower` is modelled on the ASCII
  range it is exercised on.
* `time.Duration` values are stored in seconds (the source always multiplies
  an integer by `time.Second`); validated bounded ints (`port`, `uint16`)
  stay `Nat` since the schema validators exclude overflow.
-/

/-- Distinguished error taxonomy of the remote client: `notFound` mirrors
`exoapi.ErrNotFound`, `other` carries any other error message. -/
inductive ApiErr where
  | notFound
  | other (msg : String)
deriving DecidableEq, Repr

/-- Message extracted by `diag.FromErr` from a client error. -/
def apiErrMsg : ApiErr → String
  | ApiErr.notFound => "resource not found"
  | ApiErr.other m => m

/-- Embedding of the provider helper `nonEmptyStringPtr`: a non-empty string
becomes a non-nil pointer. -/
def nonEmptyStringPtr (s : String) : Option String :=
  if s = "" then none else some s

/-- Embedding of the provider helper `defaultString`: dereference a nilable
string pointer with a default. -/
def defaultString (p : Option String) (d : String) : String :=
  p.getD d

/-- Embedding of the provider helper `defaultBool`. -/
def defaultBool (p : Option Bool) (d : Bool) : Bool :=
  p.getD d

/-- The `egoscale.SecurityGroup` remote object: nilable pointers become
`Option`. -/
structure SecurityGroup where
  id : Option String
  name : Option String
  description : Option String
  externalSources : Option (List String)
deriving DecidableEq, Repr

/-- The state container (`schema.ResourceData`) for the security-group
resource: the stored identifier plus the three schema attributes. -/
structure SGState where
  id : String
  name : String
  description : String
  externalSources : List String
deriving DecidableEq, Repr

/-- Desired configuration read out of the state bag by Create: `d.Get` /
`d.GetOk` values. An empty `externalSources` list models `GetOk` returning
not-ok for an empty set (the loop body then runs zero times either way). -/
structure SGConfig where
  name : String
  description : String
  externalSources : List String
deriving DecidableEq, Repr

/-- Remote API calls issued by the security-group adapter. -/
inductive SGCall where
  | createCall (name description : Option String)
  | addCall (cidr : String)
  | removeCall (cidr : String)
  | deleteCall (id : Option String)
deriving DecidableEq, Repr

/-- Remote client outcomes for the security-group adapter: each field is the
result the remote side returns for the corresponding egoscale call. -/
structure SGClient where
  getResult : Except ApiErr SecurityGroup
  createResult : Except ApiErr SecurityGroup
  addResult : String → Option ApiErr
  removeResult : String → Option ApiErr
  deleteResult : Option ApiErr

/-- Predicate selecting add-external-source calls. -/
def SGCall.isAddCall : SGCall → Bool
  | SGCall.addCall _ => true
  | _ => false

/-- Predicate selecting remove-external-source calls. -/
def SGCall.isRemoveCall : SGCall → Bool
  | SGCall.removeCall _ => true
  | _ => false

/-- Number of add-external-source calls in a trace. -/
def countAdds (l : List SGCall) : Nat :=
  (l.filter SGCall.isAddCall).length

/-- Number of remove-external-source calls in a trace. -/
def countRemoves (l : List SGCall) : Nat :=
  (l.filter SGCall.isRemoveCall).length

/-- The `AddExternalSourceToSecurityGroup` loop shared by Create and Update:
issues one add call per CIDR in order, stopping at the first failure
(`return diag.FromErr(err)`). Returns the issued calls and the diagnostics. -/
def sgAddLoop (client : SGClient) : List String → List SGCall × Option String
  | [] => ([], none)
  | c :: rest =>
    match client.addResult c with
    | some e => ([SGCall.addCall c], some (apiErrMsg e))
    | none =>
      let r := sgAddLoop client rest
      (SGCall.addCall c :: r.1, r.2)

/-- The `RemoveExternalSourceFromSecurityGroup` loop of Update. -/
def sgRemoveLoop (client : SGClient) : List String → List SGCall × Option String
  | [] => ([], none)
  | c :: rest =>
    match client.removeResult c with
    | some e => ([SGCall.removeCall c], some (apiErrMsg e))
    | none =>
      let r := sgRemoveLoop client rest
      (SGCall.removeCall c :: r.1, r.2)

/-- Embedding of `resourceSecurityGroupApply`: maps the fetched remote object
back into the state container. Dereferencing the nil `Name` pointer is a Go
panic, modelled as `none`; the conditional on `ExternalSources` and the
`defaultString` on `Description` follow the source. -/
def resourceSecurityGroupApply (d : SGState) (sg : SecurityGroup) : Option SGState :=
  match sg.name with
  | none => none
  | some n =>
    let d1 : SGState := { d with name := n }
    let d2 : SGState :=
      match sg.externalSources with
      | some es => { d1 with externalSources := es }
      | none => d1
    some { d2 with description := defaultString sg.description "" }

/-- Embedding of `resourceSecurityGroupRead`: fetch the remote object; on
`ErrNotFound` clear the stored identifier (`d.SetId("")`) and return empty
diagnostics; on any other error return it; on success apply the object. -/
def resourceSecurityGroupRead (client : SGClient) (d : SGState) :
    Option (SGState × Option String) :=
  match client.getResult with
  | Except.error ApiErr.notFound => some ({ d with id := "" }, none)
  | Except.error (ApiErr.other m) => some (d, some m)
  | Except.ok sg =>
    match resourceSecurityGroupApply d sg with
    | none => none
    | some d2 => some (d2, none)

/-- Embedding of `resourceSecurityGroupCreate` up to the final Read call:
issue the create call with `nonEmptyStringPtr` name/description, then one add
call per configured external source, and only after that loop store the
returned identifier (`d.SetId(*securityGroup.ID)`). Dereferencing a nil `ID`
is modelled as `none`. Returns the new state, the call trace and the
diagnostics. -/
def resourceSecurityGroupCreate (client : SGClient) (cfg : SGConfig) (d : SGState) :
    Option (SGState × List SGCall × Option String) :=
  let reqName := nonEmptyStringPtr cfg.name
  let reqDescription := nonEmptyStringPtr cfg.description
  match client.createResult with
  | Except.error e => some (d, [SGCall.createCall reqName reqDescription], some (apiErrMsg e))
  | Except.ok sg =>
    let r := sgAddLoop client cfg.externalSources
    let calls := SGCall.createCall reqName reqDescription :: r.1
    match r.2 with
    | some m => some (d, calls, some m)
    | none =>
      match sg.id with
      | none => none
      | some i => some ({ d with id := i }, calls, none)

/-- Embedding of the external-source part of `resourceSecurityGroupUpdate`
(the function then finishes with a Read, not modelled here): fetch the remote
object, and when the host engine reports a change of the set attribute
(`d.HasChange`, which for a set holds exactly when old and new differ), issue
one add call per element of `new.Difference(old)` and one remove call per
element of `old.Difference(new)`. The trace records the add/remove calls. -/
def resourceSecurityGroupUpdate (client : SGClient) (old cur : Finset String) :
    List SGCall × Option String :=
  match client.getResult with
  | Except.error e => ([], some (apiErrMsg e))
  | Except.ok _ =>
    if old ≠ cur then
      let ra := sgAddLoop client ((cur \ old).sort (· ≤ ·))
      match ra.2 with
      | some m => (ra.1, some m)
      | none =>
        let rr := sgRemoveLoop client ((old \ cur).sort (· ≤ ·))
        (ra.1 ++ rr.1, rr.2)
    else ([], none)

/-- Embedding of `resourceSecurityGroupDelete`: a single primary delete call
on the stored identifier. -/
def resourceSecurityGroupDelete (client : SGClient) (d : SGState) :
    List SGCall × Option String :=
  match client.deleteResult with
  | some e => ([SGCall.deleteCall (nonEmptyStringPtr d.id)], some (apiErrMsg e))
  | none => ([SGCall.deleteCall (nonEmptyStringPtr d.id)], none)

/-- Go rune lowercasing on the ASCII range exercised by the provider:
`strings.ToLower` maps an upper-case letter code point to its lower-case
form and leaves other runes unchanged. -/
def goRuneToLower (n : Nat) : Nat :=
  if 65 ≤ n ∧ n ≤ 90 then n + 32 else n

/-- Go string lowercasing over a string embedded as its rune code points. -/
def goStrToLower (s : List Nat) : List Nat :=
  s.map goRuneToLower

/-- Rune code points of a Lean string, for concrete examples. -/
def strRunes (s : String) : List Nat :=
  s.toList.map Char.toNat

/-- A value stored in the raw version-0 state blob: either a string (the only
shape the upgrade function accepts for `name`) or any non-string value. -/
inductive RawVal where
  | str (s : List Nat)
  | other
deriving DecidableEq, Repr

/-- The untyped raw state map, embedded as an association list. -/
abbrev RawState := List (String × RawVal)

/-- Lookup in the raw state map (`rawState["name"]`). -/
def lookupRaw : RawState → String → Option RawVal
  | [], _ => none
  | (k, v) :: rest, key => if k = key then some v else lookupRaw rest key

/-- Assignment in the raw state map (`rawState["name"] = v`). The upgrade
function only assigns to a key it has just read, so the insert-if-missing
case of a Go map assignment never arises. -/
def setRaw : RawState → String → RawVal → RawState
  | [], _, _ => []
  | (k, v) :: rest, key, nv =>
    if k = key then (k, nv) :: setRaw rest key nv else (k, v) :: setRaw rest key nv

/-- Decides whether the raw state holds a string under the `name` key (the
type assertion `rawState["name"].(string)` succeeding). -/
def nameIsString (raw : RawState) : Bool :=
  match lookupRaw raw ("name") with
  | some (RawVal.str _) => true
  | _ => false

/-- Embedding of `resourceSecurityGroupStateUpgradeV0`: if `name` holds a
string, replace it by its lowercase form and return the state; otherwise fail
with the migration error. The function is a pure data transform: the
embedding has no client parameter because the source performs no API call. -/
def resourceSecurityGroupStateUpgradeV0 (raw : RawState) : Except String RawState :=
  match lookupRaw raw ("name") with
  | some (RawVal.str s) => Except.ok (setRaw raw ("name") (RawVal.str (goStrToLower s)))
  | _ => Except.error ("unable to get resource name during migration")

/-- The `egoscale.ElasticIPHealthcheck` remote sub-object: nilable pointers
become `Option`; the two `time.Duration` fields are stored in seconds, the
`int64` strike counters as `Int`. -/
structure ElasticIPHealthcheck where
  mode : Option String
  port : Option Nat
  interval : Option Nat
  strikesFail : Option Int
  strikesOK : Option Int
  tlsSNI : Option String
  tlsSkipVerify : Option Bool
  timeout : Option Nat
  uri : Option String
deriving DecidableEq, Repr

/-- The `egoscale.ElasticIP` remote object. -/
structure ElasticIP where
  id : Option String
  addressFamily : Option String
  cidr : Option String
  description : Option String
  healthcheck : Option ElasticIPHealthcheck
  ipAddress : Option String
  labels : Option (List (String × String))
deriving DecidableEq, Repr

/-- Desired elastic-IP configuration as the adapter reads it out of the state
bag: plain `d.Get` values with the schema defaults already substituted for
absent optional sub-fields (interval 10, timeout 3, strikes_fail 2,
strikes_ok 3). `d.GetOk` is ok exactly when the value differs from its
type's zero value: empty string, zero, `false`, or an empty collection. The
healthcheck block is absent exactly when `healthcheckMode` is empty, and the
labels map absent exactly when `labels` is the empty list. -/
structure EIPCreateConfig where
  addressFamily : String
  description : String
  healthcheckMode : String
  healthcheckPort : Nat
  healthcheckInterval : Nat
  healthcheckStrikesFail : Nat
  healthcheckStrikesOK : Nat
  healthcheckTimeout : Nat
  healthcheckTLSSNI : String
  healthcheckTLSSkipVerify : Bool
  healthcheckURI : String
  labels : List (String × String)
  reverseDNS : String
deriving DecidableEq, Repr

/-- The `d.HasChange` answers the host engine gives the elastic-IP Update for
each attribute it may mutate. -/
structure EIPUpdateChanges where
  labels : Bool
  description : Bool
  hcMode : Bool
  hcPort : Bool
  hcInterval : Bool
  hcStrikesFail : Bool
  hcStrikesOK : Bool
  hcTimeout : Bool
  hcTLSSNI : Bool
  hcTLSSkipVerify : Bool
  hcURI : Bool
  reverseDNS : Bool
deriving DecidableEq, Repr

/-- Remote API calls issued by the elastic-IP adapter. The create and update
calls carry the request object they send. -/
inductive EIPCall where
  | getEIP
  | createEIP (req : ElasticIP)
  | updateEIP (req : ElasticIP)
  | updateRDNS (rdns : String)
  | deleteRDNS
  | deleteEIP
deriving DecidableEq, Repr

/-- Remote client outcomes for the elastic-IP adapter. -/
structure EIPClient where
  getResult : Except ApiErr ElasticIP
  createResult : Except ApiErr ElasticIP
  updateResult : Option ApiErr
  rdnsUpdateResult : Option ApiErr
  rdnsDeleteResult : Option ApiErr
  deleteResult : Option ApiErr

/-- Predicate selecting `UpdateElasticIP` calls. -/
def EIPCall.isUpdateEIP : EIPCall → Bool
  | EIPCall.updateEIP _ => true
  | _ => false

/-- Number of `UpdateElasticIP` calls in a trace. -/
def countEIPUpdates (l : List EIPCall) : Nat :=
  (l.filter EIPCall.isUpdateEIP).length

/-- Embedding of the request construction in `resourceElasticIPCreate`:
copies each present field into a fresh `egoscale.ElasticIP`. The source
nests the labels-copying block inside the healthcheck branch, and this
embedding reproduces that nesting. -/
def resourceElasticIPCreateRequest (cfg : EIPCreateConfig) : ElasticIP :=
  let e0 : ElasticIP :=
    { id := none, addressFamily := none, cidr := none, description := none,
      healthcheck := none, ipAddress := none, labels := none }
  let e1 : ElasticIP :=
    if cfg.addressFamily ≠ "" then { e0 with addressFamily := some cfg.addressFamily } else e0
  let e2 : ElasticIP :=
    if cfg.description ≠ "" then { e1 with description := some cfg.description } else e1
  if cfg.healthcheckMode ≠ "" then
    let hc : ElasticIPHealthcheck :=
      { mode := nonEmptyStringPtr cfg.healthcheckMode
        port := some cfg.healthcheckPort
        interval := if cfg.healthcheckInterval ≠ 0 then some cfg.healthcheckInterval else none
        strikesFail :=
          if cfg.healthcheckStrikesFail ≠ 0 then some (Int.ofNat cfg.healthcheckStrikesFail) else none
        strikesOK :=
          if cfg.healthcheckStrikesOK ≠ 0 then some (Int.ofNat cfg.healthcheckStrikesOK) else none
        tlsSNI :=
          if cfg.healthcheckTLSSNI ≠ "" then nonEmptyStringPtr cfg.healthcheckTLSSNI else none
        tlsSkipVerify := if cfg.healthcheckTLSSkipVerify then some true else none
        timeout := if cfg.healthcheckTimeout ≠ 0 then some cfg.healthcheckTimeout else none
        uri := if cfg.healthcheckURI ≠ "" then nonEmptyStringPtr cfg.healthcheckURI else none }
    let e3 : ElasticIP := { e2 with healthcheck := some hc }
    if cfg.labels ≠ [] then { e3 with labels := some cfg.labels } else e3
  else e2

/-- Embedding of `resourceElasticIPCreate` up to the final Read call: build
the request, issue the create call, store the returned identifier
(`d.SetId(*elasticIP.ID)`, a panic when `ID` is nil, modelled as `none`),
and only then issue the secondary reverse-DNS call when the attribute is
configured. Returns the identifier stored into the state container (`none`
when `SetId` was never reached), the call trace, and the diagnostics. -/
def resourceElasticIPCreate (client : EIPClient) (cfg : EIPCreateConfig) :
    Option (Option String × List EIPCall × Option String) :=
  let req := resourceElasticIPCreateRequest cfg
  match client.createResult with
  | Except.error e => some (none, [EIPCall.createEIP req], some (apiErrMsg e))
  | Except.ok eip =>
    match eip.id with
    | none => none
    | some i =>
      if cfg.reverseDNS ≠ "" then
        match client.rdnsUpdateResult with
        | some e =>
          some (some i, [EIPCall.createEIP req, EIPCall.updateRDNS cfg.reverseDNS],
            some (("unable to create Reverse DNS record: ") ++ apiErrMsg e))
        | none => some (some i, [EIPCall.createEIP req, EIPCall.updateRDNS cfg.reverseDNS], none)
      else some (some i, [EIPCall.createEIP req], none)

/-- One guarded healthcheck mutation of `resourceElasticIPUpdate`: the change
flag of the attribute and the assignment performed on the healthcheck
sub-object when the flag is set. -/
abbrev HcStep := Bool × (ElasticIPHealthcheck → ElasticIPHealthcheck)

/-- Runs the guarded healthcheck mutations in source order over the running
(object, dirty-flag) pair. Each taken mutation dereferences
`elasticIP.Healthcheck` with no nil check, so a nil healthcheck is a panic,
modelled as `none`; each taken mutation also sets the dirty flag. -/
def runHcSteps : List HcStep → ElasticIP × Bool → Option (ElasticIP × Bool)
  | [], st => some st
  | (flag, f) :: rest, st =>
    if flag then
      match st.1.healthcheck with
      | none => none
      | some hc => runHcSteps rest ({ st.1 with healthcheck := some (f hc) }, true)
    else runHcSteps rest st

/-- The nine guarded healthcheck mutations of `resourceElasticIPUpdate`, in
source order, with the new attribute values read by `d.Get`. -/
def hcSteps (cfg : EIPCreateConfig) (ch : EIPUpdateChanges) : List HcStep :=
  [ (ch.hcMode, fun hc => { hc with mode := some cfg.healthcheckMode }),
    (ch.hcPort, fun hc => { hc with port := some cfg.healthcheckPort }),
    (ch.hcInterval, fun hc => { hc with interval := some cfg.healthcheckInterval }),
    (ch.hcStrikesFail, fun hc => { hc with strikesFail := some (Int.ofNat cfg.healthcheckStrikesFail) }),
    (ch.hcStrikesOK, fun hc => { hc with strikesOK := some (Int.ofNat cfg.healthcheckStrikesOK) }),
    (ch.hcTimeout, fun hc => { hc with timeout := some cfg.healthcheckTimeout }),
    (ch.hcTLSSNI, fun hc => { hc with tlsSNI := some cfg.healthcheckTLSSNI }),
    (ch.hcTLSSkipVerify, fun hc => { hc with tlsSkipVerify := some cfg.healthcheckTLSSkipVerify }),
    (ch.hcURI, fun hc => { hc with uri := some cfg.healthcheckURI }) ]

/-- Embedding of the simple-field merge phase of `resourceElasticIPUpdate`:
the labels and description mutations followed by the guarded healthcheck
mutations, accumulating the fetched object and the `updated` dirty flag. -/
def resourceElasticIPUpdateMerge (cfg : EIPCreateConfig) (ch : EIPUpdateChanges)
    (eip : ElasticIP) : Option (ElasticIP × Bool) :=
  let st0 : ElasticIP × Bool := (eip, false)
  let st1 : ElasticIP × Bool :=
    if ch.labels then ({ st0.1 with labels := some cfg.labels }, true) else st0
  let st2 : ElasticIP × Bool :=
    if ch.description then ({ st1.1 with description := some cfg.description }, true) else st1
  runHcSteps (hcSteps cfg ch) st2

/-- The reverse-DNS phase at the end of `resourceElasticIPUpdate`: when the
attribute changed, dereference `*elasticIP.ID` (panic, `none`, when nil) and
either delete the record (new value empty) or update it. -/
def eipRdnsPhase (client : EIPClient) (cfg : EIPCreateConfig) (ch : EIPUpdateChanges)
    (eip : ElasticIP) (calls : List EIPCall) : Option (List EIPCall × Option String) :=
  if ch.reverseDNS then
    match eip.id with
    | none => none
    | some _ =>
      if cfg.reverseDNS = "" then
        match client.rdnsDeleteResult with
        | some e => some (calls ++ [EIPCall.deleteRDNS], some (apiErrMsg e))
        | none => some (calls ++ [EIPCall.deleteRDNS], none)
      else
        match client.rdnsUpdateResult with
        | some e => some (calls ++ [EIPCall.updateRDNS cfg.reverseDNS], some (apiErrMsg e))
        | none => some (calls ++ [EIPCall.updateRDNS cfg.reverseDNS], none)
  else some (calls, none)

/-- Embedding of `resourceElasticIPUpdate` up to the final Read call: fetch
the remote object, merge the changed simple fields under the dirty flag,
issue exactly one `UpdateElasticIP` call carrying the merged object when the
flag is set, then run the reverse-DNS phase. -/
def resourceElasticIPUpdate (client : EIPClient) (cfg : EIPCreateConfig)
    (ch : EIPUpdateChanges) : Option (List EIPCall × Option String) :=
  match client.getResult with
  | Except.error e => some ([EIPCall.getEIP], some (apiErrMsg e))
  | Except.ok eip =>
    match resourceElasticIPUpdateMerge cfg ch eip with
    | none => none
    | some (eip2, updated) =>
      if updated then
        match client.updateResult with
        | some e => some ([EIPCall.getEIP, EIPCall.updateEIP eip2], some (apiErrMsg e))
        | none => eipRdnsPhase client cfg ch eip2 [EIPCall.getEIP, EIPCall.updateEIP eip2]
      else eipRdnsPhase client cfg ch eip2 [EIPCall.getEIP]

/-- The dirty flag of the elastic-IP Update as the spec describes it: at
least one simple field (labels, description, or a healthcheck sub-field)
changed. -/
def eipDirty (ch : EIPUpdateChanges) : Bool :=
  ch.labels || ch.description || ch.hcMode || ch.hcPort || ch.hcInterval ||
    ch.hcStrikesFail || ch.hcStrikesOK || ch.hcTimeout || ch.hcTLSSNI ||
    ch.hcTLSSkipVerify || ch.hcURI

/-- Embedding of `resourceElasticIPDelete`: the auxiliary reverse-DNS delete
call, whose failure is surfaced only when it is not `ErrNotFound`, followed
by the primary delete call, whose failure is always surfaced. -/
def resourceElasticIPDelete (client : EIPClient) : List EIPCall × Option String :=
  match client.rdnsDeleteResult with
  | some e =>
    if e ≠ ApiErr.notFound then ([EIPCall.deleteRDNS], some (apiErrMsg e))
    else
      match client.deleteResult with
      | some e2 => ([EIPCall.deleteRDNS, EIPCall.deleteEIP], some (apiErrMsg e2))
      | none => ([EIPCall.deleteRDNS, EIPCall.deleteEIP], none)
  | none =>
    match client.deleteResult with
    | some e2 => ([EIPCall.deleteRDNS, EIPCall.deleteEIP], some (apiErrMsg e2))
    | none => ([EIPCall.deleteRDNS, EIPCall.deleteEIP], none)

/-- A client whose get reports not-found, for concrete Read scenarios. -/
def c2Client : SGClient :=
  { getResult := Except.error ApiErr.notFound
    createResult := Except.error (ApiErr.other ("unused"))
    addResult := fun _ => none
    removeResult := fun _ => none
    deleteResult := none }

/-- A populated security-group state, for concrete Read scenarios. -/
def c2State : SGState :=
  { id := "7433bb0c-0a1c-4f44-8cdb-d0b1b0b1c6a8", name := "web", description := "front",
    externalSources := ["10.0.0.0/24"] }

/-- A version-0 raw state whose name is the string MyGroup. -/
def c3Raw : RawState :=
  [("name", RawVal.str (strRunes ("MyGroup"))), ("description", RawVal.other)]

/-- A version-0 raw state with no name key. -/
def c8Raw : RawState := [("description", RawVal.other)]

/-- A fetched security group for concrete Update scenarios. -/
def c1SG : SecurityGroup :=
  { id := some ("sg-1"), name := some ("web"), description := none,
    externalSources := some ["10.0.0.0/24", "192.168.1.0/25"] }

/-- A client that succeeds on get, add and remove, for concrete Update
scenarios. -/
def c1Client : SGClient :=
  { getResult := Except.ok c1SG
    createResult := Except.error (ApiErr.other ("unused"))
    addResult := fun _ => none
    removeResult := fun _ => none
    deleteResult := none }

/-- A current external-source set for concrete Update scenarios. -/
def c1Old : Finset String := {"10.0.0.0/24", "192.168.1.0/25"}

/-- A desired external-source set for concrete Update scenarios. -/
def c1Cur : Finset String := {"10.0.0.0/24", "172.16.0.0/16"}

/-- A created security group whose secondary add call will fail. -/
def c4SG : SecurityGroup :=
  { id := some ("sg-1"), name := some ("web"), description := none, externalSources := none }

/-- A client whose create succeeds and whose add-external-source call fails. -/
def c4Client : SGClient :=
  { getResult := Except.error ApiErr.notFound
    createResult := Except.ok c4SG
    addResult := fun _ => some (ApiErr.other ("boom"))
    removeResult := fun _ => none
    deleteResult := none }

/-- A security-group configuration with one external source. -/
def c4Cfg : SGConfig :=
  { name := "web", description := "", externalSources := ["10.0.0.0/24"] }

/-- The empty state container a Create invocation starts from. -/
def c4State : SGState :=
  { id := "", name := "", description := "", externalSources := [] }

/-- A created elastic IP, for concrete Create scenarios. -/
def c4Eip : ElasticIP :=
  { id := some ("eip-1"), addressFamily := none, cidr := none, description := none,
    healthcheck := none, ipAddress := none, labels := none }

/-- A client whose elastic-IP create succeeds and whose secondary reverse-DNS
call fails. -/
def c4EipClient : EIPClient :=
  { getResult := Except.error (ApiErr.other ("unused"))
    createResult := Except.ok c4Eip
    updateResult := none
    rdnsUpdateResult := some (ApiErr.other ("dns down"))
    rdnsDeleteResult := none
    deleteResult := none }

/-- An elastic-IP configuration with a reverse-DNS attribute configured. -/
def c4EipCfg : EIPCreateConfig :=
  { addressFamily := "", description := "", healthcheckMode := "", healthcheckPort := 0,
    healthcheckInterval := 10, healthcheckStrikesFail := 2, healthcheckStrikesOK := 3,
    healthcheckTimeout := 3, healthcheckTLSSNI := "", healthcheckTLSSkipVerify := false,
    healthcheckURI := "", labels := [], reverseDNS := "host.example.net" }

/-- A populated healthcheck sub-object, for concrete Update scenarios. -/
def c5Hc : ElasticIPHealthcheck :=
  { mode := some ("tcp"), port := some 80, interval := some 10, strikesFail := some 2,
    strikesOK := some 3, tlsSNI := none, tlsSkipVerify := none, timeout := some 3,
    uri := none }

/-- A fetched elastic IP with a healthcheck, for concrete Update scenarios. -/
def c5Eip : ElasticIP :=
  { id := some ("eip-1"), addressFamily := some ("inet4"), cidr := none,
    description := some ("old"), healthcheck := some c5Hc, ipAddress := none,
    labels := none }

/-- A client whose elastic-IP get and update succeed. -/
def c5Client : EIPClient :=
  { getResult := Except.ok c5Eip
    createResult := Except.error (ApiErr.other ("unused"))
    updateResult := none
    rdnsUpdateResult := none
    rdnsDeleteResult := none
    deleteResult := none }

/-- New attribute values for a concrete Update scenario. -/
def c5Cfg : EIPCreateConfig :=
  { addressFamily := "", description := "updated", healthcheckMode := "tcp",
    healthcheckPort := 80, healthcheckInterval := 15, healthcheckStrikesFail := 2,
    healthcheckStrikesOK := 3, healthcheckTimeout := 3, healthcheckTLSSNI := "",
    healthcheckTLSSkipVerify := false, healthcheckURI := "",
    labels := [("team", "core")], reverseDNS := "" }

/-- Change flags for a concrete Update scenario: labels, description and the
healthcheck interval changed. -/
def c5Ch : EIPUpdateChanges :=
  { labels := true, description := true, hcMode := false, hcPort := false,
    hcInterval := true, hcStrikesFail := false, hcStrikesOK := false,
    hcTimeout := false, hcTLSSNI := false, hcTLSSkipVerify := false,
    hcURI := false, reverseDNS := false }

/-- An elastic-IP configuration with labels but no healthcheck block. -/
def c6NoHcCfg : EIPCreateConfig :=
  { addressFamily := "", description := "", healthcheckMode := "", healthcheckPort := 0,
    healthcheckInterval := 10, healthcheckStrikesFail := 2, healthcheckStrikesOK := 3,
    healthcheckTimeout := 3, healthcheckTLSSNI := "", healthcheckTLSSkipVerify := false,
    healthcheckURI := "", labels := [("env", "prod")], reverseDNS := "" }

/-- The same configuration with a healthcheck block configured. -/
def c6HcCfg : EIPCreateConfig :=
  { c6NoHcCfg with healthcheckMode := "tcp", healthcheckPort := 80 }

/-- A client whose reverse-DNS delete reports not-found and whose primary
delete succeeds. -/
def c7Client : EIPClient :=
  { getResult := Except.error (ApiErr.other ("unused"))
    createResult := Except.error (ApiErr.other ("unused"))
    updateResult := none
    rdnsUpdateResult := none
    rdnsDeleteResult := some ApiErr.notFound
    deleteResult := none }

/-- New attribute values for a concrete Update scenario touching the
healthcheck mode. -/
def c10Cfg : EIPCreateConfig :=
  { addressFamily := "", description := "", healthcheckMode := "http",
    healthcheckPort := 8080, healthcheckInterval := 10, healthcheckStrikesFail := 2,
    healthcheckStrikesOK := 3, healthcheckTimeout := 3, healthcheckTLSSNI := "",
    healthcheckTLSSkipVerify := false, healthcheckURI := "", labels := [],
    reverseDNS := "" }

/-- Change flags reporting only the healthcheck mode as changed. -/
def c10Ch : EIPUpdateChanges :=
  { labels := false, description := false, hcMode := true, hcPort := false,
    hcInterval := false, hcStrikesFail := false, hcStrikesOK := false,
    hcTimeout := false, hcTLSSNI := false, hcTLSSkipVerify := false,
    hcURI := false, reverseDNS := false }

/-- A fetched elastic IP with a nil healthcheck sub-object. -/
def c10Eip : ElasticIP :=
  { id := some ("eip-2"), addressFamily := none, cidr := none, description := none,
    healthcheck := none, ipAddress := none, labels := none }

/-- The same elastic IP with a healthcheck sub-object present. -/
def c10EipOk : ElasticIP := { c10Eip with healthcheck := some c5Hc }

theorem goRuneToLower_idem (n : Nat) : goRuneToLower (goRuneToLower n) = goRuneToLower n := by
  unfold goRuneToLower
  by_cases h : 65 ≤ n ∧ n ≤ 90
  · rw [if_pos h, if_neg (by omega)]
  · rw [if_neg h, if_neg h]

theorem goStrToLower_idem (s : List Nat) : goStrToLower (goStrToLower s) = goStrToLower s := by
  induction s with
  | nil => rfl
  | cons a t ih =>
    simp only [goStrToLower, List.map_cons] at ih ⊢
    rw [goRuneToLower_idem]
    exact congrArg _ (by simpa [goStrToLower] using ih)

theorem lookupRaw_setRaw (raw : RawState) (key : String) (nv : RawVal) (v0 : RawVal)
    (h : lookupRaw raw key = some v0) :
    lookupRaw (setRaw raw key nv) key = some nv := by
  induction raw with
  | nil => cases h
  | cons p rest ih =>
    obtain ⟨k, v⟩ := p
    by_cases hk : k = key
    · simp [lookupRaw, setRaw, hk]
    · simp only [lookupRaw, setRaw, if_neg hk] at h ⊢
      exact ih h

theorem setRaw_setRaw (raw : RawState) (key : String) (v w : RawVal) :
    setRaw (setRaw raw key v) key w = setRaw raw key w := by
  induction raw with
  | nil => rfl
  | cons p rest ih =>
    obtain ⟨k, u⟩ := p
    by_cases hk : k = key
    · simp [setRaw, hk, ih]
    · simp [setRaw, hk, ih]

/-- C2: when the remote get reports the distinguished not-found error, Read
clears the stored identifier and returns success (no diagnostics); any other
fetch failure is returned as an error diagnostic. -/
theorem securityGroupRead_notFound_behavior (client : SGClient) (d : SGState) :
    (client.getResult = Except.error ApiErr.notFound →
      resourceSecurityGroupRead client d = some ({ d with id := "" }, none)) ∧
    (∀ m, client.getResult = Except.error (ApiErr.other m) →
      resourceSecurityGroupRead client d = some (d, some m)) := by
  constructor
  · intro h
    simp [resourceSecurityGroupRead, h]
  · intro m h
    simp [resourceSecurityGroupRead, h]

/-- Witness for C2 at a concrete client and state. -/
theorem securityGroupRead_notFound_behavior_witness :
    resourceSecurityGroupRead c2Client c2State = some ({ c2State with id := "" }, none) :=
  (securityGroupRead_notFound_behavior c2Client c2State).1 rfl

/-- C9: on a not-found Read, clearing the identifier is the only mutation of
the state container; name, description and external sources are unchanged. -/
theorem securityGroupRead_notFound_frame (client : SGClient) (d : SGState)
    (h : client.getResult = Except.error ApiErr.notFound) :
    ∃ d2, resourceSecurityGroupRead client d = some (d2, none) ∧ d2.id = "" ∧
      d2.name = d.name ∧ d2.description = d.description ∧
      d2.externalSources = d.externalSources := by
  refine ⟨{ d with id := "" }, ?_, rfl, rfl, rfl, rfl⟩
  simp [resourceSecurityGroupRead, h]

/-- Witness for C9 at a concrete client and state. -/
theorem securityGroupRead_notFound_frame_witness :
    ∃ d2, resourceSecurityGroupRead c2Client c2State = some (d2, none) ∧ d2.id = "" ∧
      d2.name = c2State.name ∧ d2.description = c2State.description ∧
      d2.externalSources = c2State.externalSources :=
  securityGroupRead_notFound_frame c2Client c2State rfl

/-- C3: the version-0 upgrade maps a string name to its lowercase form, and
re-applying the upgrade to the upgraded state is a no-op. -/
theorem stateUpgradeV0_lowercases_idempotent (raw : RawState) (s : List Nat)
    (h : lookupRaw raw ("name") = some (RawVal.str s)) :
    resourceSecurityGroupStateUpgradeV0 raw =
      Except.ok (setRaw raw ("name") (RawVal.str (goStrToLower s))) ∧
    lookupRaw (setRaw raw ("name") (RawVal.str (goStrToLower s))) ("name") =
      some (RawVal.str (goStrToLower s)) ∧
    resourceSecurityGroupStateUpgradeV0 (setRaw raw ("name") (RawVal.str (goStrToLower s))) =
      Except.ok (setRaw raw ("name") (RawVal.str (goStrToLower s))) := by
  have h2 := lookupRaw_setRaw raw ("name") (RawVal.str (goStrToLower s)) _ h
  refine ⟨?_, h2, ?_⟩
  · simp [resourceSecurityGroupStateUpgradeV0, h]
  · simp [resourceSecurityGroupStateUpgradeV0, h2, setRaw_setRaw, goStrToLower_idem]

/-- Witness for C3: upgrading a state with name MyGroup yields the state
with name mygroup, and upgrading again is a no-op. -/
theorem stateUpgradeV0_lowercases_idempotent_witness :
    resourceSecurityGroupStateUpgradeV0 c3Raw =
      Except.ok (setRaw c3Raw ("name") (RawVal.str (goStrToLower (strRunes ("MyGroup"))))) ∧
    lookupRaw (setRaw c3Raw ("name") (RawVal.str (goStrToLower (strRunes ("MyGroup"))))) ("name") =
      some (RawVal.str (goStrToLower (strRunes ("MyGroup")))) ∧
    resourceSecurityGroupStateUpgradeV0
        (setRaw c3Raw ("name") (RawVal.str (goStrToLower (strRunes ("MyGroup"))))) =
      Except.ok (setRaw c3Raw ("name") (RawVal.str (goStrToLower (strRunes ("MyGroup"))))) :=
  stateUpgradeV0_lowercases_idempotent c3Raw (strRunes ("MyGroup")) rfl

/-- C8: on a raw state whose name key is missing or not a string, the upgrade
returns no transformed state and fails with the descriptive migration error;
the transform is pure, with no client involved. -/
theorem stateUpgradeV0_missing_name_errors (raw : RawState)
    (h : nameIsString raw = false) :
    resourceSecurityGroupStateUpgradeV0 raw =
      Except.error ("unable to get resource name during migration") := by
  unfold nameIsString at h
  unfold resourceSecurityGroupStateUpgradeV0
  cases hl : lookupRaw raw ("name") with
  | none => rfl
  | some v =>
    cases v with
    | str s => simp [hl] at h
    | other => rfl

/-- Witness for C8 at a raw state with no name key. -/
theorem stateUpgradeV0_missing_name_errors_witness :
    resourceSecurityGroupStateUpgradeV0 c8Raw =
      Except.error ("unable to get resource name during migration") :=
  stateUpgradeV0_missing_name_errors c8Raw rfl

theorem sgAddLoop_all_ok (client : SGClient) (l : List String)
    (h : ∀ c ∈ l, client.addResult c = none) :
    sgAddLoop client l = (l.map SGCall.addCall, none) := by
  induction l with
  | nil => rfl
  | cons c rest ih =>
    have hc : client.addResult c = none := h c (List.mem_cons_self c rest)
    have ht := ih (fun x hx => h x (List.mem_cons_of_mem c hx))
    simp [sgAddLoop, hc, ht]

theorem sgRemoveLoop_all_ok (client : SGClient) (l : List String)
    (h : ∀ c ∈ l, client.removeResult c = none) :
    sgRemoveLoop client l = (l.map SGCall.removeCall, none) := by
  induction l with
  | nil => rfl
  | cons c rest ih =>
    have hc : client.removeResult c = none := h c (List.mem_cons_self c rest)
    have ht := ih (fun x hx => h x (List.mem_cons_of_mem c hx))
    simp [sgRemoveLoop, hc, ht]

theorem countAdds_map_addCall (l : List String) :
    countAdds (l.map SGCall.addCall) = l.length := by
  induction l with
  | nil => rfl
  | cons c rest ih =>
    simp only [countAdds, List.map_cons, List.filter] at ih ⊢
    simp only [SGCall.isAddCall, List.length_cons, ih]

theorem countAdds_map_removeCall (l : List String) :
    countAdds (l.map SGCall.removeCall) = 0 := by
  induction l with
  | nil => rfl
  | cons c rest ih =>
    simp only [countAdds, List.map_cons, List.filter] at ih ⊢
    simp only [SGCall.isAddCall, ih]

theorem countRemoves_map_removeCall (l : List String) :
    countRemoves (l.map SGCall.removeCall) = l.length := by
  induction l with
  | nil => rfl
  | cons c rest ih =>
    simp only [countRemoves, List.map_cons, List.filter] at ih ⊢
    simp only [SGCall.isRemoveCall, List.length_cons, ih]

theorem countRemoves_map_addCall (l : List String) :
    countRemoves (l.map SGCall.addCall) = 0 := by
  induction l with
  | nil => rfl
  | cons c rest ih =>
    simp only [countRemoves, List.map_cons, List.filter] at ih ⊢
    simp only [SGCall.isRemoveCall, ih]

theorem countAdds_append (a b : List SGCall) :
    countAdds (a ++ b) = countAdds a + countAdds b := by
  simp [countAdds, List.filter_append]

theorem countRemoves_append (a b : List SGCall) :
    countRemoves (a ++ b) = countRemoves a + countRemoves b := by
  simp [countRemoves, List.filter_append]

/-- C1: for current set S1 and desired set S2, the security-group Update
issues exactly one add call per element of S2 without S1 and one remove call
per element of S1 without S2, and issues no add or remove call when the two
sets are equal. -/
theorem securityGroupUpdate_call_counts (client : SGClient) (sg : SecurityGroup)
    (old cur : Finset String)
    (hget : client.getResult = Except.ok sg)
    (hadd : ∀ c, client.addResult c = none)
    (hrem : ∀ c, client.removeResult c = none) :
    countAdds (resourceSecurityGroupUpdate client old cur).1 = (cur \ old).card ∧
    countRemoves (resourceSecurityGroupUpdate client old cur).1 = (old \ cur).card ∧
    (old = cur → (resourceSecurityGroupUpdate client old cur).1 = []) := by
  have ha := sgAddLoop_all_ok client ((cur \ old).sort (· ≤ ·)) (fun c _ => hadd c)
  have hr := sgRemoveLoop_all_ok client ((old \ cur).sort (· ≤ ·)) (fun c _ => hrem c)
  by_cases hoc : old = cur
  · subst hoc
    simp [resourceSecurityGroupUpdate, hget]
    exact ⟨rfl, rfl⟩
  · have hspec : resourceSecurityGroupUpdate client old cur =
        (((cur \ old).sort (· ≤ ·)).map SGCall.addCall ++
          ((old \ cur).sort (· ≤ ·)).map SGCall.removeCall, none) := by
      simp only [resourceSecurityGroupUpdate, hget]
      rw [if_pos hoc, ha, hr]
    rw [hspec]
    refine ⟨?_, ?_, fun he => absurd he hoc⟩
    · simp [countAdds_append, countAdds_map_addCall, countAdds_map_removeCall,
        Finset.length_sort]
    · simp [countRemoves_append, countRemoves_map_addCall, countRemoves_map_removeCall,
        Finset.length_sort]

/-- Witness for C1 at concrete sets with one added and one removed source. -/
theorem securityGroupUpdate_call_counts_witness :
    countAdds (resourceSecurityGroupUpdate c1Client c1Old c1Cur).1 = (c1Cur \ c1Old).card ∧
    countRemoves (resourceSecurityGroupUpdate c1Client c1Old c1Cur).1 = (c1Old \ c1Cur).card ∧
    (c1Old = c1Cur → (resourceSecurityGroupUpdate c1Client c1Old c1Cur).1 = []) :=
  securityGroupUpdate_call_counts c1Client c1SG c1Old c1Cur rfl (fun _ => rfl) (fun _ => rfl)

theorem countEIPUpdates_append (a b : List EIPCall) :
    countEIPUpdates (a ++ b) = countEIPUpdates a + countEIPUpdates b := by
  simp [countEIPUpdates, List.filter_append]

theorem runHcSteps_some (steps : List HcStep) (st : ElasticIP × Bool)
    (h : st.1.healthcheck.isSome = true) :
    ∃ st2, runHcSteps steps st = some st2 ∧ st2.1.healthcheck.isSome = true ∧
      st2.1.id = st.1.id ∧ st2.2 = (st.2 || steps.any (fun p => p.1)) := by
  induction steps generalizing st with
  | nil => exact ⟨st, rfl, h, rfl, by simp⟩
  | cons p rest ih =>
    obtain ⟨flag, f⟩ := p
    cases flag with
    | false =>
      obtain ⟨st2, h1, h2, h3, h4⟩ := ih st h
      refine ⟨st2, ?_, h2, h3, ?_⟩
      · simpa [runHcSteps] using h1
      · simpa using h4
    | true =>
      obtain ⟨hc, hhc⟩ := Option.isSome_iff_exists.mp h
      obtain ⟨st2, h1, h2, h3, h4⟩ :=
        ih ({ st.1 with healthcheck := some (f hc) }, true) rfl
      refine ⟨st2, ?_, h2, h3, ?_⟩
      · simpa [runHcSteps, hhc] using h1
      · simp [h4]

theorem runHcSteps_spec (cfg : EIPCreateConfig) (ch : EIPUpdateChanges)
    (st : ElasticIP × Bool) (eip : ElasticIP)
    (hsome : st.1.healthcheck.isSome = true) (hid : st.1.id = eip.id)
    (hsnd : (st.2 || (hcSteps cfg ch).any (fun p => p.1)) = eipDirty ch) :
    ∃ e2, runHcSteps (hcSteps cfg ch) st = some (e2, eipDirty ch) ∧
      e2.healthcheck.isSome = true ∧ e2.id = eip.id := by
  obtain ⟨st2, h1, h2, h3, h4⟩ := runHcSteps_some (hcSteps cfg ch) st hsome
  refine ⟨st2.1, ?_, h2, by rw [h3, hid]⟩
  rw [h1, ← hsnd, ← h4]

theorem elasticIPUpdateMerge_some (cfg : EIPCreateConfig) (ch : EIPUpdateChanges)
    (eip : ElasticIP) (h : eip.healthcheck.isSome = true) :
    ∃ e2, resourceElasticIPUpdateMerge cfg ch eip = some (e2, eipDirty ch) ∧
      e2.healthcheck.isSome = true ∧ e2.id = eip.id := by
  cases hl : ch.labels <;> cases hd : ch.description
  all_goals
    simp only [resourceElasticIPUpdateMerge, hl, hd, Bool.false_eq_true, if_false,
      if_true, ite_true, ite_false]
  all_goals
    exact runHcSteps_spec cfg ch _ eip h rfl
      (by simp [eipDirty, hcSteps, hl, hd, Bool.or_assoc])

/-- C10: mutating a changed healthcheck sub-attribute dereferences the
fetched object's healthcheck with no presence check: the merge phase is free
of nil-pointer dereference whenever the fetched healthcheck is present, and
panics (models as none) on a fetched object with a nil healthcheck when a
healthcheck sub-attribute changed. -/
theorem elasticIPUpdateMerge_nil_healthcheck_safety :
    (∀ (cfg : EIPCreateConfig) (ch : EIPUpdateChanges) (eip : ElasticIP),
      eip.healthcheck.isSome = true →
      (resourceElasticIPUpdateMerge cfg ch eip).isSome = true) ∧
    resourceElasticIPUpdateMerge c10Cfg c10Ch c10Eip = none := by
  constructor
  · intro cfg ch eip h
    obtain ⟨e2, hm, -, -⟩ := elasticIPUpdateMerge_some cfg ch eip h
    simp [hm]
  · rfl

/-- Witness for C10 at a fetched object whose healthcheck is present. -/
theorem elasticIPUpdateMerge_nil_healthcheck_safety_witness :
    (resourceElasticIPUpdateMerge c10Cfg c10Ch c10EipOk).isSome = true :=
  elasticIPUpdateMerge_nil_healthcheck_safety.1 c10Cfg c10Ch c10EipOk rfl

theorem eipRdnsPhase_some (client : EIPClient) (cfg : EIPCreateConfig)
    (ch : EIPUpdateChanges) (eip : ElasticIP) (calls : List EIPCall)
    (h : eip.id.isSome = true) :
    ∃ extra res, eipRdnsPhase client cfg ch eip calls = some (calls ++ extra, res) ∧
      countEIPUpdates extra = 0 := by
  cases hr : ch.reverseDNS with
  | false => exact ⟨[], none, by simp [eipRdnsPhase, hr], rfl⟩
  | true =>
    obtain ⟨i, hi⟩ := Option.isSome_iff_exists.mp h
    by_cases hz : cfg.reverseDNS = ""
    · cases hd : client.rdnsDeleteResult with
      | some e => exact ⟨[EIPCall.deleteRDNS], some (apiErrMsg e),
          by simp [eipRdnsPhase, hr, hi, hz, hd], rfl⟩
      | none => exact ⟨[EIPCall.deleteRDNS], none,
          by simp [eipRdnsPhase, hr, hi, hz, hd], rfl⟩
    · cases hu : client.rdnsUpdateResult with
      | some e => exact ⟨[EIPCall.updateRDNS cfg.reverseDNS], some (apiErrMsg e),
          by simp [eipRdnsPhase, hr, hi, hz, hu], rfl⟩
      | none => exact ⟨[EIPCall.updateRDNS cfg.reverseDNS], none,
          by simp [eipRdnsPhase, hr, hi, hz, hu], rfl⟩

/-- C5: the elastic-IP Update merges every changed simple field (labels,
description, healthcheck sub-fields) into the fetched in-memory object under
a dirty flag equal to the disjunction of the change flags, and issues exactly
one update call, carrying the merged object, when at least one such field
changed, and zero update calls when none changed. -/
theorem elasticIPUpdate_single_update_call (client : EIPClient) (cfg : EIPCreateConfig)
    (ch : EIPUpdateChanges) (eip : ElasticIP)
    (hget : client.getResult = Except.ok eip)
    (hhc : eip.healthcheck.isSome = true)
    (hid : eip.id.isSome = true) :
    ∃ eip2 calls res,
      resourceElasticIPUpdateMerge cfg ch eip = some (eip2, eipDirty ch) ∧
      resourceElasticIPUpdate client cfg ch = some (calls, res) ∧
      countEIPUpdates calls = (if eipDirty ch = true then 1 else 0) ∧
      (eipDirty ch = true → EIPCall.updateEIP eip2 ∈ calls) := by
  obtain ⟨e2, hm, hsome2, hid2⟩ := elasticIPUpdateMerge_some cfg ch eip hhc
  have hid2s : e2.id.isSome = true := by rw [hid2]; exact hid
  cases hd : eipDirty ch with
  | false =>
    rw [hd] at hm
    obtain ⟨extra, res, hph, hcnt⟩ :=
      eipRdnsPhase_some client cfg ch e2 [EIPCall.getEIP] hid2s
    refine ⟨e2, [EIPCall.getEIP] ++ extra, res, hm, ?_, ?_, ?_⟩
    · simp [resourceElasticIPUpdate, hget, hm, hph]
    · show countEIPUpdates ([EIPCall.getEIP] ++ extra) = if false = true then 1 else 0
      rw [countEIPUpdates_append, hcnt]
      rfl
    · intro hcontra
      cases hcontra
  | true =>
    rw [hd] at hm
    cases hu : client.updateResult with
    | some e =>
      refine ⟨e2, [EIPCall.getEIP, EIPCall.updateEIP e2], some (apiErrMsg e), hm, ?_, ?_, ?_⟩
      · simp [resourceElasticIPUpdate, hget, hm, hu]
      · rfl
      · intro hy
        simp
    | none =>
      obtain ⟨extra, res, hph, hcnt⟩ :=
        eipRdnsPhase_some client cfg ch e2 [EIPCall.getEIP, EIPCall.updateEIP e2] hid2s
      refine ⟨e2, [EIPCall.getEIP, EIPCall.updateEIP e2] ++ extra, res, hm, ?_, ?_, ?_⟩
      · simp [resourceElasticIPUpdate, hget, hm, hu, hph]
      · show countEIPUpdates ([EIPCall.getEIP, EIPCall.updateEIP e2] ++ extra) =
          if true = true then 1 else 0
        rw [countEIPUpdates_append, hcnt]
        rfl
      · intro hy
        simp

/-- Witness for C5 at a concrete update changing labels, description and the
healthcheck interval. -/
theorem elasticIPUpdate_single_update_call_witness :
    ∃ eip2 calls res,
      resourceElasticIPUpdateMerge c5Cfg c5Ch c5Eip = some (eip2, eipDirty c5Ch) ∧
      resourceElasticIPUpdate c5Client c5Cfg c5Ch = some (calls, res) ∧
      countEIPUpdates calls = (if eipDirty c5Ch = true then 1 else 0) ∧
      (eipDirty c5Ch = true → EIPCall.updateEIP eip2 ∈ calls) :=
  elasticIPUpdate_single_update_call c5Client c5Cfg c5Ch c5Eip rfl rfl rfl

/-- C7: in the elastic-IP Delete, a reverse-DNS cleanup call that succeeds or
fails with not-found lets the operation continue to the primary delete call,
whose outcome then decides the operation; any failure of the primary delete
call makes the operation fail. -/
theorem elasticIPDelete_rdns_notFound_tolerated (client : EIPClient) :
    ((client.rdnsDeleteResult = none ∨ client.rdnsDeleteResult = some ApiErr.notFound) →
      EIPCall.deleteEIP ∈ (resourceElasticIPDelete client).1 ∧
      ((resourceElasticIPDelete client).2 = none ↔ client.deleteResult = none)) ∧
    (∀ e, client.deleteResult = some e →
      (resourceElasticIPDelete client).2.isSome = true) := by
  constructor
  · intro h
    rcases h with h | h
    · cases hd : client.deleteResult with
      | some e => simp [resourceElasticIPDelete, h, hd]
      | none => simp [resourceElasticIPDelete, h, hd]
    · cases hd : client.deleteResult with
      | some e => simp [resourceElasticIPDelete, h, hd]
      | none => simp [resourceElasticIPDelete, h, hd]
  · intro e he
    cases hr : client.rdnsDeleteResult with
    | none => simp [resourceElasticIPDelete, hr, he]
    | some er =>
      by_cases hne : er = ApiErr.notFound
      · subst hne
        simp [resourceElasticIPDelete, hr, he]
      · simp [resourceElasticIPDelete, hr, hne, he]

/-- Witness for C7 at a client whose reverse-DNS delete reports not-found and
whose primary delete succeeds. -/
theorem elasticIPDelete_rdns_notFound_tolerated_witness :
    EIPCall.deleteEIP ∈ (resourceElasticIPDelete c7Client).1 ∧
    ((resourceElasticIPDelete c7Client).2 = none ↔ c7Client.deleteResult = none) :=
  (elasticIPDelete_rdns_notFound_tolerated c7Client).1 (Or.inr rfl)

/-- C6: evaluation of the create-request builder at a configuration with a
labels map and no healthcheck block shows that the labels are not copied into
the request, because the source nests the labels block inside the healthcheck
branch; with a healthcheck block configured the same labels are copied. The
claim that a present labels map is always copied, independently of the
healthcheck block, is what the schema and the update path implement, so the
nesting is a slip in the code. -/
theorem elasticIPCreateRequest_labels_nested_bug :
    (resourceElasticIPCreateRequest c6NoHcCfg).labels = none ∧
    (resourceElasticIPCreateRequest c6HcCfg).labels = some [("env", "prod")] :=
  ⟨rfl, rfl⟩

/-- C4 counterexample: a concrete security-group Create whose primary create
call succeeds (returning identifier sg-1) and whose secondary
add-external-source call fails returns an error diagnostic with the state
container unchanged: the stored identifier is still empty, so the identifier
was not stored before the secondary calls, contradicting the claim. -/
theorem securityGroupCreate_id_after_secondary_counterexample :
    resourceSecurityGroupCreate c4Client c4Cfg c4State =
      some (c4State,
        [SGCall.createCall (some ("web")) none, SGCall.addCall ("10.0.0.0/24")],
        some ("boom")) ∧
    c4State.id = "" :=
  ⟨rfl, rfl⟩

/-- C4 (amended): the elastic-IP Create stores the returned identifier before
its secondary reverse-DNS call, and on a secondary failure reports an error
with the identifier still set and no rollback delete call issued; the
security-group Create issues its secondary add-external-source calls before
storing the identifier, so a failing secondary call reports an error with the
identifier still unset, again with no rollback delete call; in both cases the
primary remote object is left behind. -/
theorem create_identifier_storage_amended :
    (∀ (client : EIPClient) (cfg : EIPCreateConfig) (eip : ElasticIP) (i : String)
        (e : ApiErr),
      client.createResult = Except.ok eip → eip.id = some i → cfg.reverseDNS ≠ "" →
      client.rdnsUpdateResult = some e →
      resourceElasticIPCreate client cfg =
        some (some i,
          [EIPCall.createEIP (resourceElasticIPCreateRequest cfg),
            EIPCall.updateRDNS cfg.reverseDNS],
          some (("unable to create Reverse DNS record: ") ++ apiErrMsg e)) ∧
      EIPCall.deleteEIP ∉
        [EIPCall.createEIP (resourceElasticIPCreateRequest cfg),
          EIPCall.updateRDNS cfg.reverseDNS]) ∧
    (∀ (client : SGClient) (cfg : SGConfig) (d : SGState) (sg : SecurityGroup)
        (c : String) (rest : List String) (e : ApiErr),
      client.createResult = Except.ok sg → cfg.externalSources = c :: rest →
      client.addResult c = some e →
      resourceSecurityGroupCreate client cfg d =
        some (d,
          [SGCall.createCall (nonEmptyStringPtr cfg.name) (nonEmptyStringPtr cfg.description),
            SGCall.addCall c],
          some (apiErrMsg e)) ∧
      (∀ x, SGCall.deleteCall x ∉
        [SGCall.createCall (nonEmptyStringPtr cfg.name) (nonEmptyStringPtr cfg.description),
          SGCall.addCall c])) := by
  constructor
  · intro client cfg eip i e hcr hid hne hrd
    constructor
    · simp [resourceElasticIPCreate, hcr, hid, hne, hrd]
    · simp
  · intro client cfg d sg c rest e hcr hcfg hadd
    constructor
    · simp [resourceSecurityGroupCreate, hcr, hcfg, sgAddLoop, hadd]
    · intro x
      simp

/-- Witness for the amended C4 at a concrete elastic-IP Create whose
reverse-DNS call fails and a concrete security-group Create whose add call
fails. -/
theorem create_identifier_storage_amended_witness :
    (resourceElasticIPCreate c4EipClient c4EipCfg =
      some (some ("eip-1"),
        [EIPCall.createEIP (resourceElasticIPCreateRequest c4EipCfg),
          EIPCall.updateRDNS c4EipCfg.reverseDNS],
        some (("unable to create Reverse DNS record: ") ++ apiErrMsg (ApiErr.other ("dns down")))) ∧
      EIPCall.deleteEIP ∉
        [EIPCall.createEIP (resourceElasticIPCreateRequest c4EipCfg),
          EIPCall.updateRDNS c4EipCfg.reverseDNS]) ∧
    (resourceSecurityGroupCreate c4Client c4Cfg c4State =
      some (c4State,
        [SGCall.createCall (nonEmptyStringPtr c4Cfg.name) (nonEmptyStringPtr c4Cfg.description),
          SGCall.addCall ("10.0.0.0/24")],
        some (apiErrMsg (ApiErr.other ("boom")))) ∧
      (∀ x, SGCall.deleteCall x ∉
        [SGCall.createCall (nonEmptyStringPtr c4Cfg.name) (nonEmptyStringPtr c4Cfg.description),
          SGCall.addCall ("10.0.0.0/24")])) :=
  ⟨create_identifier_storage_amended.1 c4EipClient c4EipCfg c4Eip ("eip-1")
      (ApiErr.other ("dns down")) rfl rfl (by decide) rfl,
    create_identifier_storage_amended.2 c4Client c4Cfg c4State c4SG ("10.0.0.0/24") []
      (ApiErr.other ("boom")) rfl rfl rfl⟩
